import Mathlib

/-!
Shallow embedding of the citizen-reporting API's route handlers
(report creation, listing, retrieval, upvote toggle, official update,
and the user-profile routes), with theorems checking the spec's
access-control and data-consistency claims against the code.

Conventions of the embedding:
* Database rows are Lean structures; tables are lists of rows.
* `single()` lookups become `List.find?`; a missing row is the 404 path.
* JavaScript truthiness on nullable string columns is modelled on
  `Option String`: `none` (null/undefined) and `some ""` are falsy.
* Query-string parameters arrive as `Option String` (absent or the raw
  string); numeric defaults applied in code are modelled with a `JSVal`
  that distinguishes JavaScript numbers from strings, so that `+` is
  string concatenation when either operand is a string, as in the code.
-/

/-- Error responses the handlers produce, one constructor per distinct
(status, message) pair relevant to the claims. -/
inductive ApiError where
  | notFound
  | forbidden
  | selfUpvoteForbidden
  | invalidAssignment
  | unresolvableLocation
  deriving Repr, DecidableEq

/-- HTTP status code each error is returned with in the handlers. -/
def ApiError.httpStatus : ApiError → Nat
  | .notFound => 404
  | .forbidden => 403
  | .selfUpvoteForbidden => 400
  | .invalidAssignment => 400
  | .unresolvableLocation => 400

/-- A row of the `users` table (profile fields relevant to the claims).
`municipality_id` is nullable. -/
structure User where
  id : String
  name : String
  email : String
  role : String
  municipality_id : Option String
  deriving Repr, DecidableEq

/-- A row of the `reports` table. `municipality_id` is non-null (set at
creation); `assigned_official` is nullable; `created_at` is an abstract
timestamp used only for ordering. -/
structure Report where
  id : String
  title : String
  description : String
  category : String
  municipality_id : String
  created_by : String
  status : String
  assigned_official : Option String
  created_at : Nat
  deriving Repr, DecidableEq

/-- JavaScript truthiness of a nullable string value: null/undefined and
the empty string are falsy. -/
def jsTruthy : Option String → Bool
  | none => false
  | some s => s != ""

/-- `a || b` on nullable string values, as used for
`municipality_id || userMunicipalityId`. -/
def jsOr (a b : Option String) : Option String :=
  if jsTruthy a then a else b

/-- `reports.find?`-based lookup used by every `.eq('id', id).single()`
query on the reports table. -/
def findReport (reports : List Report) (id : String) : Option Report :=
  reports.find? (fun r => r.id == id)

/-- The access predicate of GET /reports/:id: citizen authors and
officials of the report's municipality. -/
def canAccessReport (user : User) (r : Report) : Bool :=
  (user.role == "citizen" && r.created_by == user.id)
    || (user.role == "official" && some r.municipality_id == user.municipality_id)

/-- Handler of GET /reports/:id — fetch a single report by id: a missing
row is 404, then the access check runs. -/
def getReportById (reports : List Report) (user : User) (id : String) :
    Except ApiError Report :=
  match findReport reports id with
  | none => .error .notFound
  | some r => if canAccessReport user r then .ok r else .error .forbidden

/-- State and response produced by the upvote-toggle handler: the
`report_upvotes` table after the call (rows are (report_id, user_id)
pairs) and the HTTP response (`.ok b` is the `{upvoted: b}` body). -/
structure UpvoteOutcome where
  upvotes : List (String × String)
  response : Except ApiError Bool
  deriving Repr

/-- The row predicate of the `.eq('report_id', ...).eq('user_id', ...)`
filters used by the upvote lookup and delete. -/
def isUpvoteBy (reportId userId : String) (p : String × String) : Bool :=
  p.1 == reportId && p.2 == userId

/-- Handler of POST /reports/:id/upvote — toggle the caller's upvote:
404 when the report is missing, self-upvote rejected, then the existing
row is deleted or a new row inserted. -/
def upvoteReport (reports : List Report) (upvotes : List (String × String))
    (user : User) (reportId : String) : UpvoteOutcome :=
  match findReport reports reportId with
  | none => ⟨upvotes, .error .notFound⟩
  | some report =>
    if report.created_by == user.id then
      ⟨upvotes, .error .selfUpvoteForbidden⟩
    else
      match upvotes.find? (isUpvoteBy reportId user.id) with
      | some _ =>
        ⟨upvotes.filter (fun p => !(isUpvoteBy reportId user.id p)), .ok false⟩
      | none => ⟨(reportId, user.id) :: upvotes, .ok true⟩

/-- Concrete fixture: a report in municipality m1 authored by u1. -/
def reportA : Report :=
  { id := "r1", title := "t", description := "d", category := "c",
    municipality_id := "m1", created_by := "u1", status := "open",
    assigned_official := none, created_at := 0 }

/-- Concrete fixture: the citizen author of `reportA`. -/
def citizenU1 : User :=
  { id := "u1", name := "n1", email := "e1", role := "citizen",
    municipality_id := some "m1" }

/-- Concrete fixture: a second citizen in municipality m1. -/
def citizenU2 : User :=
  { id := "u2", name := "n2", email := "e2", role := "citizen",
    municipality_id := some "m1" }

/-- Concrete fixture: an official of municipality m1. -/
def officialO1 : User :=
  { id := "o1", name := "n3", email := "e3", role := "official",
    municipality_id := some "m1" }

/-- Concrete fixture: an official of municipality m2. -/
def officialO2 : User :=
  { id := "o2", name := "n4", email := "e4", role := "official",
    municipality_id := some "m2" }

/-- Concrete fixture: a citizen with no municipality on record. -/
def citizenU9 : User :=
  { id := "u9", name := "n9", email := "e9", role := "citizen",
    municipality_id := none }

/-- A JavaScript value that is either a number or a string: query-string
parameters arrive as strings, while the code-side defaults (`limit = 50`,
`offset = 0`) are numbers. -/
inductive JSVal where
  | num (n : Int)
  | str (s : String)
  deriving Repr, DecidableEq

/-- JavaScript `+`: numeric addition unless either operand is a string,
in which case both are converted to strings and concatenated. -/
def jsAdd : JSVal → JSVal → JSVal
  | .num a, .num b => .num (a + b)
  | .num a, .str b => .str (toString a ++ b)
  | .str a, .num b => .str (a ++ toString b)
  | .str a, .str b => .str (a ++ b)

/-- Decimal value of a digit string (empty string gives 0, as in
JavaScript's Number conversion); `none` for a non-digit character. -/
def decNat? (cs : List Char) : Option Nat :=
  cs.foldl (fun acc c =>
    match acc with
    | none => none
    | some n => if c.isDigit then some (10 * n + (c.toNat - 48)) else none) (some 0)

/-- Numeric coercion applied by JavaScript `-` and by the storage client
to range bounds. The query-string inputs considered in this development
are decimal literals, for which this agrees with JavaScript's Number
conversion; the NaN outcome on other strings is collapsed to 0 and never
relied upon. -/
def jsToNumber : JSVal → Int
  | .num n => n
  | .str s =>
    match decNat? s.data with
    | some n => (n : Int)
    | none => 0

/-- A destructured query parameter with a numeric code-side default:
the raw string when supplied, the default number otherwise. -/
def queryParamOr (q : Option String) (d : Int) : JSVal :=
  match q with
  | some s => .str s
  | none => .num d

/-- Insert a report into a list already ordered by `created_at`
descending, keeping it ordered. -/
def insertByCreatedAtDesc (r : Report) : List Report → List Report
  | [] => [r]
  | x :: xs =>
    if r.created_at ≤ x.created_at then x :: insertByCreatedAtDesc r xs
    else r :: x :: xs

/-- The `.order('created_at', descending)` step of the listing queries. -/
def sortByCreatedAtDesc : List Report → List Report
  | [] => []
  | x :: xs => insertByCreatedAtDesc x (sortByCreatedAtDesc xs)

/-- The storage client's `range(a, b)`: rows at zero-based positions `a`
through `b` inclusive of the ordered result. -/
def rangeSlice (l : List Report) (a b : Int) : List Report :=
  (l.drop a.toNat).take (b - a + 1).toNat

/-- A conditional `.eq` filter added only when the query parameter is
truthy (`if (status) query = query.eq('status', status)`). -/
def optEqFilter (q : Option String) (v : String) : Bool :=
  if jsTruthy q then q == some v else true

/-- Handler of GET /reports/mine — the caller's own reports, optionally
filtered by status/category, ordered newest first, then ranged with
bounds computed exactly as the code's `range(offset, offset + limit - 1)`
on the raw query values. -/
def getMine (reports : List Report) (user : User)
    (qStatus qCategory qLimit qOffset : Option String) : List Report :=
  let limitVal := queryParamOr qLimit 50
  let offsetVal := queryParamOr qOffset 0
  let matching := reports.filter (fun r =>
    r.created_by == user.id && optEqFilter qStatus r.status
      && optEqFilter qCategory r.category)
  rangeSlice (sortByCreatedAtDesc matching) (jsToNumber offsetVal)
    (jsToNumber (jsAdd offsetVal limitVal) - 1)

/-- Handler of GET /reports — the officials' municipality listing: the
target municipality is the query value when truthy, else the caller's
own; a mismatch with the caller's municipality is rejected with 403,
otherwise reports are filtered to the target municipality. -/
def getReports (reports : List Report) (user : User)
    (qMunicipality qStatus qCategory qLimit qOffset : Option String) :
    Except ApiError (List Report) :=
  let target := jsOr qMunicipality user.municipality_id
  if target != user.municipality_id then .error .forbidden
  else
    let limitVal := queryParamOr qLimit 50
    let offsetVal := queryParamOr qOffset 0
    let matching := reports.filter (fun r =>
      (some r.municipality_id == target) && optEqFilter qStatus r.status
        && optEqFilter qCategory r.category)
    .ok (rangeSlice (sortByCreatedAtDesc matching) (jsToNumber offsetVal)
      (jsToNumber (jsAdd offsetVal limitVal) - 1))

/-- Concrete fixture: thirteen reports authored by u1 in municipality m1
with distinct creation times. -/
def manyReports : List Report :=
  (List.range 13).map (fun i =>
    { id := toString i, title := "t", description := "d", category := "c",
      municipality_id := "m1", created_by := "u1", status := "open",
      assigned_official := none, created_at := i })

/-- State and response of the report-creation handler. -/
structure CreateOutcome where
  reports : List Report
  upvotes : List (String × String)
  response : Except ApiError Report
  deriving Repr

/-- Modelled from the spec: the `status` column's database default — the
schema lives in the external store, not in this repository; §4.2 step 3
and the §8 scenario fix the default open state as "open". -/
def defaultOpenStatus : String := "open"

/-- The row inserted by report creation: the request's content fields,
the resolved municipality, the caller as author, the default open
status, and no assignment. -/
def mkNewReport (newId title description category m userId : String)
    (createdAt : Nat) : Report :=
  { id := newId, title := title, description := description,
    category := category, municipality_id := m, created_by := userId,
    status := defaultOpenStatus, assigned_official := none,
    created_at := createdAt }

/-- Handler of POST /reports — create a report: the municipality is the
caller's own when truthy, else the external geocoder's result for the
request's coordinates (`geocoded`); if still falsy the request fails
with no row written; otherwise exactly one row is inserted, owned by the
caller, with the default open status and no assignment. -/
def createReport (reports : List Report) (upvotes : List (String × String))
    (user : User) (geocoded : Option String) (newId : String)
    (title description category : String) (createdAt : Nat) : CreateOutcome :=
  let municipalityId :=
    if jsTruthy user.municipality_id then user.municipality_id else geocoded
  match municipalityId with
  | some m =>
    if m == "" then ⟨reports, upvotes, .error .unresolvableLocation⟩
    else
      ⟨mkNewReport newId title description category m user.id createdAt :: reports,
       upvotes,
       .ok (mkNewReport newId title description category m user.id createdAt)⟩
  | none => ⟨reports, upvotes, .error .unresolvableLocation⟩

/-- A raw PUT /reports/:id request body: each field may be absent
(`none`); `assigned_official` may also carry an explicit JSON null
(`some none`), used to clear an assignment. -/
structure RawPatch where
  status : Option String
  assigned_official : Option (Option String)
  created_by : Option String
  municipality_id : Option String
  id : Option String
  deriving Repr, DecidableEq

/-- A validated update body, restricted to the official-writable
fields. -/
structure UpdatePatch where
  status : Option String
  assigned_official : Option (Option String)
  deriving Repr, DecidableEq

/-- Modelled from the spec: `updateReportSchema` with its validation
middleware is not under src/ — §4.7 requires the patch to range over the
official-writable fields (status, assigned_official) and the immutable
created_by, municipality_id and id to be rejected or ignored when
present in the body; ignoring is modelled by stripping them. -/
def validateUpdateSchema (p : RawPatch) : UpdatePatch :=
  ⟨p.status, p.assigned_official⟩

/-- The store's `.update(updates)` applied to one row: absent fields keep
their value; an explicit null clears `assigned_official`. -/
def applyPatch (p : UpdatePatch) (r : Report) : Report :=
  { r with
    status := match p.status with | some s => s | none => r.status
    assigned_official :=
      match p.assigned_official with | some v => v | none => r.assigned_official }

/-- The `users` lookup validating an assignee: the given id, role
official, and the acting official's municipality, `.single()`. -/
def findAssignee (users : List User) (aid : String) (munic : Option String) :
    Option User :=
  users.find? (fun u =>
    u.id == aid && u.role == "official" && u.municipality_id == munic)

/-- The code's `if (updates.assigned_official)` guard: `some aid` when
the patch carries a truthy assignee id, `none` when the field is absent,
null, or the empty string. -/
def patchAssigneeTruthy (p : UpdatePatch) : Option String :=
  match p.assigned_official with
  | some (some aid) => if aid == "" then none else some aid
  | some none => none
  | none => none

/-- State and response of the report-update handler. -/
structure UpdateOutcome where
  reports : List Report
  response : Except ApiError Report
  deriving Repr

/-- Handler of PUT /reports/:id — official update: 404 on a missing
report, 403 on another municipality's report, InvalidAssignment when a
truthy assignee id does not resolve to an official of the acting
official's municipality, else the validated patch is applied to the
row. -/
def updateReport (users : List User) (reports : List Report) (user : User)
    (id : String) (raw : RawPatch) : UpdateOutcome :=
  let updates := validateUpdateSchema raw
  match findReport reports id with
  | none => ⟨reports, .error .notFound⟩
  | some report =>
    if some report.municipality_id != user.municipality_id then
      ⟨reports, .error .forbidden⟩
    else
      let assigneeFails :=
        match patchAssigneeTruthy updates with
        | some aid => (findAssignee users aid user.municipality_id).isNone
        | none => false
      if assigneeFails then ⟨reports, .error .invalidAssignment⟩
      else
        ⟨reports.map (fun r => if r.id == id then applyPatch updates r else r),
          .ok (applyPatch updates report)⟩

/-- An Express route pattern: a literal path segment or a `:param`
segment matching any value. -/
inductive RoutePattern where
  | exact (s : String)
  | param
  deriving Repr, DecidableEq

/-- Whether a pattern matches a path segment. -/
def matchesPattern : RoutePattern → String → Bool
  | .exact s, seg => s == seg
  | .param, _ => true

/-- The two GET handlers of the users router. -/
inductive UsersHandler where
  | getById
  | getMe
  deriving Repr, DecidableEq

/-- The users router's GET routes in registration order: `/:id` first,
then `/me`. -/
def usersRoutes : List (RoutePattern × UsersHandler) :=
  [(RoutePattern.param, UsersHandler.getById),
   (RoutePattern.exact "me", UsersHandler.getMe)]

/-- Express dispatch: the first registered route whose pattern matches
the request path segment. -/
def dispatchUsers (seg : String) : Option UsersHandler :=
  (usersRoutes.find? (fun pr => matchesPattern pr.1 seg)).map (fun pr => pr.2)

/-- Handler of GET /users/:id — profile by id: own data, or an official
of the same municipality. -/
def getUserById (users : List User) (current : User) (id : String) :
    Except ApiError User :=
  match users.find? (fun u => u.id == id) with
  | none => .error .notFound
  | some userData =>
    if current.id == userData.id
        || (current.role == "official"
            && current.municipality_id == userData.municipality_id) then
      .ok userData
    else .error .forbidden

/-- Handler of GET /users/me — the caller's own profile row. -/
def getCurrentUser (users : List User) (current : User) : Except ApiError User :=
  match users.find? (fun u => u.id == current.id) with
  | none => .error .notFound
  | some u => .ok u

/-- A GET request to /users/<seg>, dispatched as Express does over the
router's registered routes. -/
def handleUsersGet (users : List User) (current : User) (seg : String) :
    Option (Except ApiError User) :=
  match dispatchUsers seg with
  | some UsersHandler.getById => some (getUserById users current seg)
  | some UsersHandler.getMe => some (getCurrentUser users current)
  | none => none

/-- C2: in GET /reports/:id, a missing id fails NotFound before any
ownership check; an existing report is returned iff the caller is its
citizen author or an official of its municipality, and every other
combination fails Forbidden. -/
theorem getReportById_access (reports : List Report) (user : User) (id : String) :
    (findReport reports id = none → getReportById reports user id = .error .notFound) ∧
    (∀ r, findReport reports id = some r →
      (getReportById reports user id = .ok r ↔
        ((user.role = "citizen" ∧ r.created_by = user.id) ∨
         (user.role = "official" ∧ user.municipality_id = some r.municipality_id))) ∧
      (¬ ((user.role = "citizen" ∧ r.created_by = user.id) ∨
          (user.role = "official" ∧ user.municipality_id = some r.municipality_id)) →
        getReportById reports user id = .error .forbidden)) := by
  constructor
  · intro h
    simp [getReportById, h]
  · intro r hr
    have hacc : canAccessReport user r = true ↔
        ((user.role = "citizen" ∧ r.created_by = user.id) ∨
         (user.role = "official" ∧ user.municipality_id = some r.municipality_id)) := by
      simp [canAccessReport]
      constructor
      · rintro (⟨h1, h2⟩ | ⟨h1, h2⟩)
        · exact Or.inl ⟨h1, h2⟩
        · exact Or.inr ⟨h1, h2.symm⟩
      · rintro (⟨h1, h2⟩ | ⟨h1, h2⟩)
        · exact Or.inl ⟨h1, h2⟩
        · exact Or.inr ⟨h1, h2.symm⟩
    constructor
    · rw [← hacc]
      cases hc : canAccessReport user r with
      | true => simp [getReportById, hr, hc]
      | false => simp [getReportById, hr, hc]
    · rw [← hacc]
      intro hnot
      have hc : canAccessReport user r = false := by
        cases hcc : canAccessReport user r with
        | true => exact absurd hcc hnot
        | false => rfl
      simp [getReportById, hr, hc]

/-- Witness for C2: a citizen author retrieves their own report. -/
theorem getReportById_access_witness :
    getReportById [reportA] citizenU1 "r1" = .ok reportA :=
  ((getReportById_access [reportA] citizenU1 "r1").2 reportA
    (by decide)).1.mpr (Or.inl ⟨rfl, rfl⟩)

theorem isUpvoteBy_iff (reportId userId : String) (p : String × String) :
    isUpvoteBy reportId userId p ↔ p = (reportId, userId) := by
  simp [isUpvoteBy, Prod.ext_iff]

theorem find?_isUpvoteBy_eq_none (l : List (String × String)) (reportId userId : String) :
    l.find? (isUpvoteBy reportId userId) = none ↔ (reportId, userId) ∉ l := by
  rw [List.find?_eq_none]
  constructor
  · intro h hmem
    exact h _ hmem ((isUpvoteBy_iff reportId userId _).mpr rfl)
  · intro h x hx hpx
    exact h (((isUpvoteBy_iff reportId userId x).mp hpx) ▸ hx)

theorem not_mem_filter_not_isUpvoteBy (l : List (String × String)) (reportId userId : String) :
    (reportId, userId) ∉ l.filter (fun p => !(isUpvoteBy reportId userId p)) := by
  intro h
  have := (List.mem_filter.mp h).2
  simp [isUpvoteBy] at this

theorem mem_filter_not_isUpvoteBy_of_ne (l : List (String × String)) (reportId userId : String)
    (p : String × String) (hne : p ≠ (reportId, userId)) :
    p ∈ l.filter (fun p => !(isUpvoteBy reportId userId p)) ↔ p ∈ l := by
  rw [List.mem_filter]
  constructor
  · exact fun h => h.1
  · intro h
    refine ⟨h, ?_⟩
    simp only [Bool.not_eq_true']
    cases hb : isUpvoteBy reportId userId p with
    | false => rfl
    | true => exact absurd ((isUpvoteBy_iff reportId userId p).mp hb) hne

/-- C3: in the upvote toggle, the preconditions are checked in order
(missing report → NotFound; own report → SelfUpvoteForbidden), and for an
eligible caller an existing row is deleted with response
`{upvoted: false}` while an absent row is inserted with response
`{upvoted: true}`; rows of other (report, user) pairs are untouched. -/
theorem upvoteReport_toggle (reports : List Report) (upvotes : List (String × String))
    (user : User) (reportId : String) :
    (findReport reports reportId = none →
      upvoteReport reports upvotes user reportId = ⟨upvotes, .error .notFound⟩) ∧
    (∀ r, findReport reports reportId = some r → r.created_by = user.id →
      upvoteReport reports upvotes user reportId = ⟨upvotes, .error .selfUpvoteForbidden⟩) ∧
    (∀ r, findReport reports reportId = some r → r.created_by ≠ user.id →
      (((reportId, user.id) ∈ upvotes →
        (upvoteReport reports upvotes user reportId).response = .ok false ∧
        (reportId, user.id) ∉ (upvoteReport reports upvotes user reportId).upvotes) ∧
       ((reportId, user.id) ∉ upvotes →
        (upvoteReport reports upvotes user reportId).response = .ok true ∧
        (reportId, user.id) ∈ (upvoteReport reports upvotes user reportId).upvotes) ∧
       (∀ p, p ≠ (reportId, user.id) →
        (p ∈ (upvoteReport reports upvotes user reportId).upvotes ↔ p ∈ upvotes)))) := by
  refine ⟨fun h => by simp [upvoteReport, h], fun r hr hcb => ?_, fun r hr hcb => ?_⟩
  · simp [upvoteReport, hr, hcb]
  · have hcb' : (r.created_by == user.id) = false := by
      simpa using hcb
    refine ⟨fun hmem => ?_, fun hmem => ?_, fun p hp => ?_⟩
    · have hfind : upvotes.find? (isUpvoteBy reportId user.id) ≠ none := fun h =>
        (find?_isUpvoteBy_eq_none upvotes reportId user.id).mp h hmem
      match hf : upvotes.find? (isUpvoteBy reportId user.id) with
      | none => exact absurd hf hfind
      | some q =>
        constructor
        · simp [upvoteReport, hr, hcb', hf]
        · simp only [upvoteReport, hr, hcb', hf]
          exact not_mem_filter_not_isUpvoteBy upvotes reportId user.id
    · have hfind : upvotes.find? (isUpvoteBy reportId user.id) = none :=
        (find?_isUpvoteBy_eq_none upvotes reportId user.id).mpr hmem
      constructor
      · simp [upvoteReport, hr, hcb', hfind]
      · simp [upvoteReport, hr, hcb', hfind]
    · match hf : upvotes.find? (isUpvoteBy reportId user.id) with
      | none =>
        simp only [upvoteReport, hr, hcb', hf]
        simp [List.mem_cons, hp]
      | some q =>
        simp only [upvoteReport, hr, hcb', hf]
        exact mem_filter_not_isUpvoteBy_of_ne upvotes reportId user.id p hp

/-- Witness for C3: an eligible citizen upvoting a report they have not
yet upvoted gets `{upvoted: true}` and the row appears. -/
theorem upvoteReport_toggle_witness :
    (upvoteReport [reportA] [] citizenU2 "r1").response = .ok true ∧
    ("r1", "u2") ∈ (upvoteReport [reportA] [] citizenU2 "r1").upvotes :=
  ((upvoteReport_toggle [reportA] [] citizenU2 "r1").2.2 reportA
    (by decide) (by decide)).2.1 (by decide)

/-- C4: for an existing report and an eligible citizen (not the author),
toggling twice restores the original upvote state for that (report, user)
pair, and when the starting table has at most one row per pair, both
intermediate and final tables do too. -/
theorem upvoteReport_involutive (reports : List Report) (upvotes : List (String × String))
    (user : User) (reportId : String) (r : Report)
    (hr : findReport reports reportId = some r)
    (hcb : r.created_by ≠ user.id)
    (huniq : ∀ p, upvotes.count p ≤ 1) :
    (((reportId, user.id) ∈
        (upvoteReport reports (upvoteReport reports upvotes user reportId).upvotes
          user reportId).upvotes) ↔
      ((reportId, user.id) ∈ upvotes)) ∧
    (∀ p, ((upvoteReport reports upvotes user reportId).upvotes.count p ≤ 1)) ∧
    (∀ p, ((upvoteReport reports (upvoteReport reports upvotes user reportId).upvotes
        user reportId).upvotes.count p ≤ 1)) := by
  have hcb' : (r.created_by == user.id) = false := by simpa using hcb
  cases hf : upvotes.find? (isUpvoteBy reportId user.id) with
  | none =>
    have hnotmem : (reportId, user.id) ∉ upvotes :=
      (find?_isUpvoteBy_eq_none upvotes reportId user.id).mp hf
    have hs1 : (upvoteReport reports upvotes user reportId).upvotes =
        (reportId, user.id) :: upvotes := by
      simp [upvoteReport, hr, hcb', hf]
    have hfind2 : ((reportId, user.id) :: upvotes).find? (isUpvoteBy reportId user.id) =
        some (reportId, user.id) :=
      List.find?_cons_of_pos _ ((isUpvoteBy_iff reportId user.id _).mpr rfl)
    have hs2 : (upvoteReport reports ((reportId, user.id) :: upvotes) user reportId).upvotes =
        ((reportId, user.id) :: upvotes).filter
          (fun p => !(isUpvoteBy reportId user.id p)) := by
      simp [upvoteReport, hr, hcb', hfind2]
    rw [hs1, hs2]
    have hs1count : ∀ p, (((reportId, user.id) :: upvotes).count p ≤ 1) := by
      intro p
      by_cases hp : p = (reportId, user.id)
      · subst hp
        rw [List.count_cons_self, List.count_eq_zero.mpr hnotmem]
      · rw [List.count_cons_of_ne hp]
        exact huniq p
    refine ⟨?_, hs1count, ?_⟩
    · constructor
      · intro h
        exact absurd h (not_mem_filter_not_isUpvoteBy _ reportId user.id)
      · intro h
        exact absurd h hnotmem
    · intro p
      exact le_trans ((List.filter_sublist _).count_le p) (hs1count p)
  | some q =>
    have hq : q = (reportId, user.id) :=
      (isUpvoteBy_iff reportId user.id q).mp (List.find?_some hf)
    have hmem : (reportId, user.id) ∈ upvotes := hq ▸ List.mem_of_find?_eq_some hf
    have hs1 : (upvoteReport reports upvotes user reportId).upvotes =
        upvotes.filter (fun p => !(isUpvoteBy reportId user.id p)) := by
      simp [upvoteReport, hr, hcb', hf]
    have hnot1 : (reportId, user.id) ∉
        upvotes.filter (fun p => !(isUpvoteBy reportId user.id p)) :=
      not_mem_filter_not_isUpvoteBy upvotes reportId user.id
    have hfind2 : (upvotes.filter (fun p => !(isUpvoteBy reportId user.id p))).find?
        (isUpvoteBy reportId user.id) = none :=
      (find?_isUpvoteBy_eq_none _ reportId user.id).mpr hnot1
    have hs2 : (upvoteReport reports
        (upvotes.filter (fun p => !(isUpvoteBy reportId user.id p))) user reportId).upvotes =
        (reportId, user.id) :: upvotes.filter (fun p => !(isUpvoteBy reportId user.id p)) := by
      simp [upvoteReport, hr, hcb', hfind2]
    rw [hs1, hs2]
    have hs1count : ∀ p,
        ((upvotes.filter (fun p => !(isUpvoteBy reportId user.id p))).count p ≤ 1) :=
      fun p => le_trans ((List.filter_sublist _).count_le p) (huniq p)
    refine ⟨⟨fun _ => hmem, fun _ => List.mem_cons_self _ _⟩, hs1count, ?_⟩
    intro p
    by_cases hp : p = (reportId, user.id)
    · subst hp
      rw [List.count_cons_self, List.count_eq_zero.mpr hnot1]
    · rw [List.count_cons_of_ne hp]
      exact hs1count p

/-- Witness for C4: starting from a table where u2 already upvoted r1,
two toggles restore the row and the one-row-per-pair bound holds
throughout. -/
theorem upvoteReport_involutive_witness :
    ("r1", "u2") ∈
      (upvoteReport [reportA] (upvoteReport [reportA] [("r1", "u2")] citizenU2 "r1").upvotes
        citizenU2 "r1").upvotes :=
  (upvoteReport_involutive [reportA] [("r1", "u2")] citizenU2 "r1" reportA
    (by decide) (by decide)
    (fun p => by simpa using List.count_le_length p [("r1", "u2")])).1.mpr (by decide)

theorem mem_insertByCreatedAtDesc (r x : Report) (l : List Report) :
    x ∈ insertByCreatedAtDesc r l ↔ x = r ∨ x ∈ l := by
  induction l with
  | nil => simp [insertByCreatedAtDesc]
  | cons y ys ih =>
    by_cases h : r.created_at ≤ y.created_at
    · simp only [insertByCreatedAtDesc, if_pos h, List.mem_cons, ih]
      tauto
    · simp only [insertByCreatedAtDesc, if_neg h, List.mem_cons]

theorem mem_sortByCreatedAtDesc (x : Report) (l : List Report) :
    x ∈ sortByCreatedAtDesc l ↔ x ∈ l := by
  induction l with
  | nil => simp [sortByCreatedAtDesc]
  | cons y ys ih =>
    simp only [sortByCreatedAtDesc, mem_insertByCreatedAtDesc, List.mem_cons, ih]

theorem mem_of_mem_rangeSlice (l : List Report) (a b : Int) (r : Report)
    (h : r ∈ rangeSlice l a b) : r ∈ l :=
  List.mem_of_mem_drop (List.mem_of_mem_take h)

/-- C1: in the officials' report listing, supplying an explicit target
municipality different from the caller's own fails Forbidden with no
report data, and on any successful response every returned report's
municipality is the caller's own. -/
theorem getReports_tenant_isolation (reports : List Report) (user : User)
    (qm qs qc ql qo : Option String) :
    (∀ m, qm = some m → m ≠ "" → user.municipality_id ≠ some m →
      getReports reports user qm qs qc ql qo = .error .forbidden) ∧
    (∀ l, getReports reports user qm qs qc ql qo = .ok l →
      ∀ r, r ∈ l → some r.municipality_id = user.municipality_id) := by
  constructor
  · intro m hm hne hmun
    subst hm
    have ht : jsTruthy (some m) = true := by simpa [jsTruthy] using hne
    have hb : (some m != user.municipality_id) = true := by
      simp only [bne_iff_ne, ne_eq]
      exact fun h => hmun h.symm
    simp [getReports, jsOr, ht, hb]
  · intro l hl r hr
    by_cases hb : jsOr qm user.municipality_id = user.municipality_id
    · have hbne : (jsOr qm user.municipality_id != user.municipality_id) = false := by
        simp [hb]
      rw [getReports] at hl
      simp only [hbne, Bool.false_eq_true, if_false, Except.ok.injEq] at hl
      subst hl
      have hmem := mem_of_mem_rangeSlice _ _ _ r hr
      rw [mem_sortByCreatedAtDesc] at hmem
      have := (List.mem_filter.mp hmem).2
      have hmu : (some r.municipality_id == jsOr qm user.municipality_id) = true := by
        cases hq : (some r.municipality_id == jsOr qm user.municipality_id) with
        | true => rfl
        | false => simp [hq] at this
      rw [hb] at hmu
      exact eq_of_beq hmu
    · have hbne : (jsOr qm user.municipality_id != user.municipality_id) = true := by
        simpa using hb
      rw [getReports] at hl
      simp [hbne] at hl

/-- Witness for C1: an official of m2 asking for municipality m1 is
refused, and listing without a target returns only m1 reports to an m1
official. -/
theorem getReports_tenant_isolation_witness :
    getReports [reportA] officialO2 (some "m1") none none none none =
      .error .forbidden := by
  exact (getReports_tenant_isolation [reportA] officialO2 (some "m1")
    none none none none).1 "m1" rfl (by decide) (by decide)

/-- C8, evaluated at the failing input: GET /reports/mine with the query
strings limit=2 and offset=1 over thirteen matching reports returns
eleven items — `'1' + '2'` concatenates to `'12'`, so the requested range
is rows 1 through 11 instead of 1 through 2 — exceeding the claimed
at-most-`limit` page size. -/
theorem getMine_pagination_overrun :
    (getMine manyReports citizenU1 none none (some "2") (some "1")).length = 11 ∧
    ¬ ((getMine manyReports citizenU1 none none (some "2") (some "1")).length ≤ 2) := by
  constructor
  · rfl
  · decide

/-- C5: report creation resolves the municipality from the caller when
present, else from geocoding; when neither resolves it fails
UnresolvableLocation with no row written; on success exactly one row is
inserted, owned by the caller, with the default open status, no
assignment, and no upvote rows for the new report. -/
theorem createReport_resolution (reports : List Report)
    (upvotes : List (String × String)) (user : User) (geocoded : Option String)
    (newId title description category : String) (createdAt : Nat) :
    (∀ m, user.municipality_id = some m → m ≠ "" →
      createReport reports upvotes user geocoded newId title description category createdAt =
        ⟨mkNewReport newId title description category m user.id createdAt :: reports,
         upvotes,
         .ok (mkNewReport newId title description category m user.id createdAt)⟩) ∧
    (jsTruthy user.municipality_id = false → ∀ g, geocoded = some g → g ≠ "" →
      createReport reports upvotes user geocoded newId title description category createdAt =
        ⟨mkNewReport newId title description category g user.id createdAt :: reports,
         upvotes,
         .ok (mkNewReport newId title description category g user.id createdAt)⟩) ∧
    (jsTruthy user.municipality_id = false → jsTruthy geocoded = false →
      createReport reports upvotes user geocoded newId title description category createdAt =
        ⟨reports, upvotes, .error .unresolvableLocation⟩) ∧
    (∀ r,
      (createReport reports upvotes user geocoded newId title description category createdAt).response =
        .ok r →
      (createReport reports upvotes user geocoded newId title description category createdAt).reports =
        r :: reports ∧
      (createReport reports upvotes user geocoded newId title description category createdAt).upvotes =
        upvotes ∧
      r.id = newId ∧ r.created_by = user.id ∧ r.status = defaultOpenStatus ∧
      r.assigned_official = none ∧
      ((∀ p, p ∈ upvotes → p.1 ≠ newId) →
        ∀ p, p ∈ (createReport reports upvotes user geocoded newId title
          description category createdAt).upvotes → p.1 ≠ r.id)) := by
  refine ⟨?_, ?_, ?_, ?_⟩
  · intro m hm hne
    have ht : jsTruthy user.municipality_id = true := by
      rw [hm]; simpa [jsTruthy] using hne
    simp [createReport, hm, ht, jsTruthy, hne]
  · intro ht g hg hne
    simp [createReport, ht, hg, hne]
  · intro ht hg
    cases hgc : geocoded with
    | none => simp [createReport, ht, hgc]
    | some s =>
      have hs : (s == "") = true := by
        rw [hgc] at hg
        simpa [jsTruthy] using hg
      simp [createReport, ht, hgc, hs]
  · intro r hok
    cases hmu : (if jsTruthy user.municipality_id then user.municipality_id else geocoded) with
    | none =>
      exfalso
      simp [createReport, hmu] at hok
    | some m =>
      by_cases hm : (m == "") = true
      · exfalso
        simp [createReport, hmu, hm] at hok
      · have hm' : (m == "") = false := by simpa using hm
        have hE : createReport reports upvotes user geocoded newId title description category createdAt =
            ⟨mkNewReport newId title description category m user.id createdAt :: reports,
             upvotes,
             .ok (mkNewReport newId title description category m user.id createdAt)⟩ := by
          simp [createReport, hmu, hm']
        rw [hE] at hok
        have hr : mkNewReport newId title description category m user.id createdAt = r := by
          simpa using hok
        subst hr
        rw [hE]
        refine ⟨rfl, rfl, rfl, rfl, rfl, rfl, ?_⟩
        intro hfresh p hp
        exact fun hid => hfresh p hp hid

/-- Witness for C5: a citizen with no municipality creates a report that
geocoding resolves to m1. -/
theorem createReport_resolution_witness :
    createReport [] [] citizenU9 (some "m1") "r9" "t" "d" "c" 7 =
      ⟨[mkNewReport "r9" "t" "d" "c" "m1" "u9" 7], [],
       .ok (mkNewReport "r9" "t" "d" "c" "m1" "u9" 7)⟩ :=
  (createReport_resolution [] [] citizenU9
    (some "m1") "r9" "t" "d" "c" 7).2.1 (by decide) "m1" rfl (by decide)

/-- C6: for an official updating a report of their own municipality with
a (truthy) assignee id in the patch, the update fails InvalidAssignment
with the table unchanged unless the id resolves to a user with role
official in the acting official's municipality — which, the report being
in that same municipality, is also the report's municipality. -/
theorem updateReport_assignee_validation (users : List User) (reports : List Report)
    (user : User) (id : String) (raw : RawPatch) (report : Report) (aid : String)
    (hr : findReport reports id = some report)
    (hm : user.municipality_id = some report.municipality_id)
    (ha : (validateUpdateSchema raw).assigned_official = some (some aid))
    (hne : aid ≠ "") :
    (findAssignee users aid user.municipality_id = none →
      updateReport users reports user id raw = ⟨reports, .error .invalidAssignment⟩) ∧
    (∀ out, (updateReport users reports user id raw).response = .ok out →
      ∃ a, findAssignee users aid user.municipality_id = some a ∧
        a.id = aid ∧ a.role = "official" ∧
        a.municipality_id = some report.municipality_id) := by
  have hmb : (some report.municipality_id != user.municipality_id) = false := by
    simp [hm]
  have haid : (aid == "") = false := by simpa using hne
  have htr : patchAssigneeTruthy (validateUpdateSchema raw) = some aid := by
    simp [patchAssigneeTruthy, ha, haid]
  constructor
  · intro hnone
    simp [updateReport, hr, hmb, htr, hnone]
  · intro out hok
    cases hfa : findAssignee users aid user.municipality_id with
    | none =>
      exfalso
      simp [updateReport, hr, hmb, htr, hfa] at hok
    | some a =>
      have hpred := List.find?_some hfa
      simp only [Bool.and_eq_true, beq_iff_eq] at hpred
      obtain ⟨⟨h1, h2⟩, h3⟩ := hpred
      exact ⟨a, rfl, h1, h2, h3.trans hm⟩

/-- Witness for C6: an m1 official assigning an m1 report to the m2
official o2 fails InvalidAssignment with the table unchanged. -/
theorem updateReport_assignee_validation_witness :
    updateReport [officialO1, officialO2] [reportA] officialO1 "r1"
      ⟨none, some (some "o2"), none, none, none⟩ =
      ⟨[reportA], .error .invalidAssignment⟩ :=
  (updateReport_assignee_validation [officialO1, officialO2] [reportA] officialO1
    "r1" ⟨none, some (some "o2"), none, none, none⟩ reportA "o2"
    (by decide) rfl rfl (by decide)).1 (by decide)

/-- C7: a successful official update leaves every report's id,
created_by, municipality_id, title, description, category and created_at
unchanged — whatever the raw patch body contained — pairing the old and
new tables row by row. -/
theorem updateReport_immutable_fields (users : List User) (reports : List Report)
    (user : User) (id : String) (raw : RawPatch) (out : Report)
    (hok : (updateReport users reports user id raw).response = .ok out) :
    List.Forall₂ (fun old new =>
      new.id = old.id ∧ new.created_by = old.created_by ∧
      new.municipality_id = old.municipality_id ∧ new.title = old.title ∧
      new.description = old.description ∧ new.category = old.category ∧
      new.created_at = old.created_at)
      reports (updateReport users reports user id raw).reports := by
  cases hfr : findReport reports id with
  | none =>
    exfalso
    simp [updateReport, hfr] at hok
  | some report =>
    by_cases hmb : (some report.municipality_id != user.municipality_id) = true
    · exfalso
      simp [updateReport, hfr, hmb] at hok
    · have hmb' : (some report.municipality_id != user.municipality_id) = false := by
        simpa using hmb
      cases hfail : (match patchAssigneeTruthy (validateUpdateSchema raw) with
        | some aid => (findAssignee users aid user.municipality_id).isNone
        | none => false) with
      | true =>
        exfalso
        simp [updateReport, hfr, hmb', hfail] at hok
      | false =>
        have hE : (updateReport users reports user id raw).reports =
            reports.map (fun r =>
              if r.id == id then applyPatch (validateUpdateSchema raw) r else r) := by
          simp [updateReport, hfr, hmb', hfail]
        rw [hE]
        clear hok hE hfr
        induction reports with
        | nil => exact List.Forall₂.nil
        | cons x xs ih =>
          refine List.Forall₂.cons ?_ ih
          by_cases hx : (x.id == id) = true
          · simp [hx, applyPatch]
          · have hx' : (x.id == id) = false := by simpa using hx
            simp [hx']

/-- Witness for C7: a patch that also smuggles in created_by,
municipality_id and id values succeeds, with the stored row keeping its
original values for all of them. -/
theorem updateReport_immutable_fields_witness :
    List.Forall₂ (fun old new =>
      new.id = old.id ∧ new.created_by = old.created_by ∧
      new.municipality_id = old.municipality_id ∧ new.title = old.title ∧
      new.description = old.description ∧ new.category = old.category ∧
      new.created_at = old.created_at)
      [reportA]
      (updateReport [officialO1] [reportA] officialO1 "r1"
        ⟨some "resolved", none, some "evil", some "m9", some "zzz"⟩).reports :=
  updateReport_immutable_fields [officialO1] [reportA] officialO1 "r1"
    ⟨some "resolved", none, some "evil", some "m9", some "zzz"⟩
    (applyPatch ⟨some "resolved", none⟩ reportA) rfl

/-- C10: when the patch's assigned_official is absent, null, or the
empty string, the assignee check is skipped: the response is never
InvalidAssignment, the patch is applied to a reachable report, and an
explicit null clears the assignment. -/
theorem updateReport_falsy_assignee (users : List User) (reports : List Report)
    (user : User) (id : String) (raw : RawPatch) :
    (patchAssigneeTruthy (validateUpdateSchema raw) = none →
      (updateReport users reports user id raw).response ≠ .error .invalidAssignment) ∧
    (∀ report, findReport reports id = some report →
      user.municipality_id = some report.municipality_id →
      patchAssigneeTruthy (validateUpdateSchema raw) = none →
      (updateReport users reports user id raw).response =
        .ok (applyPatch (validateUpdateSchema raw) report) ∧
      (raw.assigned_official = some none →
        (applyPatch (validateUpdateSchema raw) report).assigned_official = none)) := by
  constructor
  · intro hfalsy hcontra
    cases hfr : findReport reports id with
    | none => simp [updateReport, hfr] at hcontra
    | some report =>
      by_cases hmb : (some report.municipality_id != user.municipality_id) = true
      · simp [updateReport, hfr, hmb] at hcontra
      · have hmb' : (some report.municipality_id != user.municipality_id) = false := by
          simpa using hmb
        simp [updateReport, hfr, hmb', hfalsy] at hcontra
  · intro report hfr hm hfalsy
    have hmb : (some report.municipality_id != user.municipality_id) = false := by
      simp [hm]
    refine ⟨?_, ?_⟩
    · simp [updateReport, hfr, hmb, hfalsy]
    · intro hclear
      simp [applyPatch, validateUpdateSchema, hclear]

/-- Witness for C10: clearing an assignment with an explicit null
succeeds and leaves the report unassigned. -/
theorem updateReport_falsy_assignee_witness :
    (updateReport [officialO1] [reportA] officialO1 "r1"
        ⟨none, some none, none, none, none⟩).response =
      .ok (applyPatch (validateUpdateSchema ⟨none, some none, none, none, none⟩) reportA) ∧
    (applyPatch (validateUpdateSchema ⟨none, some none, none, none, none⟩)
        reportA).assigned_official = none := by
  have h := (updateReport_falsy_assignee [officialO1] [reportA] officialO1 "r1"
    ⟨none, some none, none, none, none⟩).2 reportA (by decide) rfl rfl
  exact ⟨h.1, h.2 rfl⟩

/-- C9, evaluated on the code's route table: a GET for /users/me matches
the earlier-registered /:id route with id = "me", so with no user row
whose id is the literal string "me" the caller gets NotFound instead of
their own profile — which the (unreachable) /me handler would have
returned. -/
theorem usersMe_route_shadowed :
    dispatchUsers "me" = some UsersHandler.getById ∧
    handleUsersGet [citizenU1, officialO1] citizenU1 "me" =
      some (.error .notFound) ∧
    getCurrentUser [citizenU1, officialO1] citizenU1 = .ok citizenU1 := by
  exact ⟨rfl, rfl, rfl⟩
